import Mathlib

/-!
Verification development for the any2pdf conversion and migration engine.

The Python sources are shallowly embedded here:
- `any2pdf.py`: extension classification (`get_category_for_extension`),
  the conversion dispatcher (`convert_anything_to_pdf`), the PDF handler
  (`_handle_pdf`) and the attachment embedder (`attach_original_to_pdf`,
  modelled as a small-step trace over an abstract filesystem).
- `migrate_blobs_to_pdf.py`: the main migration loop (filters, per-category
  test cap, existence skip, fallback/error bookkeeping), modelled as a
  recursive function over a blob listing with external effects (download,
  conversion, placeholder, save) supplied by a per-item outcome oracle.
- `extract_failures.py`: the failure ledger (log-line regex extraction,
  error categorisation, `parse_log`, and the `--update` prune operation),
  modelled over `List Char` with hand-rolled scanners matching the two
  regular expressions of the source.

Strings are modelled as `List Char` so every definition evaluates by
kernel reduction.
-/

namespace Any2Pdf

/-- Shorthand: characters of a string literal. -/
def toL (s : String) : List Char := s.toList

/-- ASCII whitespace, matching the characters Python's `\s` recognises on
the log lines at hand. -/
def isWs (c : Char) : Bool :=
  c = ' ' || c = '\t' || c = '\n' || c = '\r' || c = '\x0b' || c = '\x0c'

/-- Word character for Python's `\w` (ASCII range as used in the log). -/
def isWordChar (c : Char) : Bool :=
  c.isAlpha || c.isDigit || c = '_'

/-- Lowercase an ASCII letter, modelling Python's `str.lower()` on the
ASCII extensions and flags this code base handles. -/
def lowerChar (c : Char) : Char :=
  if c = 'A' then 'a' else if c = 'B' then 'b' else if c = 'C' then 'c'
  else if c = 'D' then 'd' else if c = 'E' then 'e' else if c = 'F' then 'f'
  else if c = 'G' then 'g' else if c = 'H' then 'h' else if c = 'I' then 'i'
  else if c = 'J' then 'j' else if c = 'K' then 'k' else if c = 'L' then 'l'
  else if c = 'M' then 'm' else if c = 'N' then 'n' else if c = 'O' then 'o'
  else if c = 'P' then 'p' else if c = 'Q' then 'q' else if c = 'R' then 'r'
  else if c = 'S' then 's' else if c = 'T' then 't' else if c = 'U' then 'u'
  else if c = 'V' then 'v' else if c = 'W' then 'w' else if c = 'X' then 'x'
  else if c = 'Y' then 'y' else if c = 'Z' then 'z' else c

/-- `str.lower()` on a character list. -/
def lowerStr (s : List Char) : List Char := s.map lowerChar

/-- Characters of the last path component (after the last `/`),
as `pathlib.PurePath.name`. -/
def takeAfterLast (sep : Char) (l : List Char) : List Char :=
  (l.reverse.takeWhile (fun c => c != sep)).reverse

/-- `pathlib.PurePath.suffix`: the final extension including the dot, empty
unless the last component has a dot at index `i` with `0 < i < len - 1`. -/
def pySuffix (path : List Char) : List Char :=
  let name := takeAfterLast '/' path
  let after := name.reverse.takeWhile (fun c => c != '.')
  if after.length = name.length then []
  else
    let i := name.length - after.length - 1
    if 0 < i ∧ i < name.length - 1 then name.drop i else []

/-- `pathlib.PurePath.stem`: last component without the final extension. -/
def pyStem (path : List Char) : List Char :=
  let name := takeAfterLast '/' path
  let after := name.reverse.takeWhile (fun c => c != '.')
  if after.length = name.length then name
  else
    let i := name.length - after.length - 1
    if 0 < i ∧ i < name.length - 1 then name.take i else name

/-- `pathlib` path join `a / b`. -/
def joinP (a b : List Char) : List Char := a ++ '/' :: b

/-- Python `str.rsplit('.', 1)[0]` when a dot is present: everything before
the last dot. -/
def beforeLastDot (l : List Char) : List Char :=
  ((l.reverse.dropWhile (fun c => c != '.')).drop 1).reverse

/-- Python `str.strip()` restricted to whitespace. -/
def pyStrip (l : List Char) : List Char :=
  ((l.dropWhile isWs).reverse.dropWhile isWs).reverse

/-- Python `pat in s` substring containment. -/
def hasSub (pat : List Char) : List Char → Bool
  | [] => pat.isEmpty
  | c :: rest => pat.isPrefixOf (c :: rest) || hasSub pat rest

/-! ## Extension classifier (`any2pdf.py`, lines 36-78) -/

def PDF_EXTENSIONS : List (List Char) := [toL ".pdf"]
def WORD_EXTENSIONS : List (List Char) :=
  [toL ".doc", toL ".docx", toL ".rtf", toL ".odt", toL ".txt", toL ".dot"]
def EXCEL_EXTENSIONS : List (List Char) :=
  [toL ".xls", toL ".xlsx", toL ".ods", toL ".csv", toL ".xlsm"]
def PPT_EXTENSIONS : List (List Char) := [toL ".ppt", toL ".pptx", toL ".odp"]
def IMAGE_EXTENSIONS : List (List Char) :=
  [toL ".jpg", toL ".jpeg", toL ".png", toL ".tif", toL ".tiff", toL ".bmp", toL ".heic"]
def HTML_EXTENSIONS : List (List Char) := [toL ".html", toL ".htm"]
def MSG_EXTENSIONS : List (List Char) := [toL ".msg"]
def EML_EXTENSIONS : List (List Char) := [toL ".eml"]

def ALL_SUPPORTED_EXTENSIONS : List (List Char) :=
  PDF_EXTENSIONS ++ WORD_EXTENSIONS ++ EXCEL_EXTENSIONS ++ PPT_EXTENSIONS ++
  IMAGE_EXTENSIONS ++ HTML_EXTENSIONS ++ MSG_EXTENSIONS ++ EML_EXTENSIONS

/-- The fixed category enumeration. -/
inductive Category where
  | pdf | word | excel | ppt | image | html | msg | eml | attachment
deriving DecidableEq, Repr

/-- `get_category_for_extension` (`any2pdf.py` lines 59-78): lowercase the
extension, then look it up in the fixed per-category sets, falling through
to `attachment`. -/
def get_category_for_extension (ext : List Char) : Category :=
  let e := lowerStr ext
  if e ∈ PDF_EXTENSIONS then .pdf
  else if e ∈ WORD_EXTENSIONS then .word
  else if e ∈ EXCEL_EXTENSIONS then .excel
  else if e ∈ PPT_EXTENSIONS then .ppt
  else if e ∈ IMAGE_EXTENSIONS then .image
  else if e ∈ HTML_EXTENSIONS then .html
  else if e ∈ MSG_EXTENSIONS then .msg
  else if e ∈ EML_EXTENSIONS then .eml
  else .attachment

/-! ## Conversion dispatcher (`any2pdf.py`, lines 316-335 and 571-636)

The renderers (Word/Excel/PowerPoint COM automation, Pillow, Edge headless,
Outlook) are external capabilities: the dispatcher only depends on their
success/failure signal, modelled by `renderOk`.  Filesystem effects are
recorded as a list of operations so that "no renderer invoked" and
"byte-copy with metadata preserved" (`shutil.copy2`) are observable. -/

/-- Error outcomes of `convert_anything_to_pdf`: `FileNotFoundError`,
`ValueError` for an unsupported extension, and a renderer exception. -/
inductive ConvErr where
  | notFound
  | unsupportedFormat (ext : List Char)
  | renderFailure (cat : Category)
deriving DecidableEq, Repr

/-- Observable filesystem/renderer operations of the dispatcher. -/
inductive FsOp where
  | copy2 (src dst : List Char)
  | render (cat : Category) (src dst : List Char)
  | attach (pdf orig : List Char)
deriving DecidableEq, Repr

/-- Environment of a dispatcher invocation: whether the source file exists,
`Path.resolve`, and the success signal of each category renderer. -/
structure RenderEnv where
  srcExists : Bool
  resolve : List Char → List Char
  renderOk : Category → Bool

/-- `_handle_pdf` (`any2pdf.py` lines 316-335): same resolved path means
return the source with no write; otherwise `shutil.copy2` to the target.
The `attach_original` parameter is accepted but never acted on (lines
331-333 only contain a comment). -/
def handle_pdf (env : RenderEnv) (srcPath dstDir : List Char)
    (attach_original : Bool) : Except ConvErr (List Char) × List FsOp :=
  let _ := attach_original
  let dstPath := joinP dstDir (pyStem srcPath ++ toL ".pdf")
  if env.resolve srcPath = env.resolve dstPath then (.ok srcPath, [])
  else (.ok dstPath, [.copy2 srcPath dstPath])

/-- Common shape of `_convert_word_to_pdf`, `_convert_excel_to_pdf`,
`_convert_ppt_to_pdf`, `_convert_image_to_pdf`, `_convert_html_to_pdf`,
`_convert_msg_to_pdf`, `_convert_eml_to_pdf`: render to
`dst_dir / (stem + ".pdf")`, propagate renderer failure, then embed the
original when `attach_original` is set. -/
def routeRender (env : RenderEnv) (cat : Category) (srcPath dstDir : List Char)
    (attach_original : Bool) : Except ConvErr (List Char) × List FsOp :=
  let dstPath := joinP dstDir (pyStem srcPath ++ toL ".pdf")
  if env.renderOk cat then
    if attach_original then
      (.ok dstPath, [.render cat srcPath dstPath, .attach dstPath srcPath])
    else
      (.ok dstPath, [.render cat srcPath dstPath])
  else (.error (.renderFailure cat), [.render cat srcPath dstPath])

/-- `convert_anything_to_pdf` (`any2pdf.py` lines 571-636): existence check,
then routing on the lowercased extension; PDF inputs go to `_handle_pdf`
with `attach_original=False`; anything outside the supported sets raises
the unsupported-extension `ValueError`. -/
def convert_anything_to_pdf (env : RenderEnv) (srcPath dstDir : List Char)
    (attach_original : Bool) : Except ConvErr (List Char) × List FsOp :=
  if env.srcExists then
    let ext := lowerStr (pySuffix srcPath)
    if ext ∈ PDF_EXTENSIONS then handle_pdf env srcPath dstDir false
    else if ext ∈ WORD_EXTENSIONS then routeRender env .word srcPath dstDir attach_original
    else if ext ∈ EXCEL_EXTENSIONS then routeRender env .excel srcPath dstDir attach_original
    else if ext ∈ PPT_EXTENSIONS then routeRender env .ppt srcPath dstDir attach_original
    else if ext ∈ IMAGE_EXTENSIONS then routeRender env .image srcPath dstDir attach_original
    else if ext ∈ HTML_EXTENSIONS then routeRender env .html srcPath dstDir attach_original
    else if ext ∈ MSG_EXTENSIONS then routeRender env .msg srcPath dstDir attach_original
    else if ext ∈ EML_EXTENSIONS then routeRender env .eml srcPath dstDir attach_original
    else (.error (.unsupportedFormat ext), [])
  else (.error .notFound, [])

/-! ## Attachment embedder (`any2pdf.py`, lines 97-134)

`attach_original_to_pdf` reads the source PDF and the original file into
memory, builds the new container, writes it to a fresh
`NamedTemporaryFile` in `pdf_path.parent`, and finishes with `os.replace`.
The filesystem is a map from paths to opaque whole-file contents (`Nat`
tokens); writing a file is atomic per-path, and `os.replace` is the only
operation that ever touches `pdf_path`.  Read failures are signalled by
the environment. -/

/-- Abstract filesystem: path to complete file content (`none` = absent). -/
def Fs : Type := List Char → Option Nat

/-- Point update of the abstract filesystem. -/
def fsSet (fs : Fs) (p : List Char) (v : Option Nat) : Fs :=
  fun q => if q = p then v else fs q

/-- Environment of one `attach_original_to_pdf` call: do the two reads
succeed, and the content token of the fully assembled new PDF container. -/
structure EmbedEnv where
  readPdfOk : Bool
  readOrigOk : Bool
  newContent : Nat

/-- `attach_original_to_pdf` as a small-step trace of filesystem states
(first element is the initial state, last is the final state), plus a
success flag.  Failure of either read happens before any write; on success
the new container first appears at the fresh temporary path and reaches
`pdf_path` only through the final atomic `os.replace`. -/
def attach_original_to_pdf (env : EmbedEnv) (fs0 : Fs)
    (pdfPath origPath tmpPath : List Char) : List Fs × Bool :=
  let _ := origPath
  if env.readPdfOk then
    if env.readOrigOk then
      let fs1 := fsSet fs0 tmpPath (some env.newContent)
      let fs2 := fsSet (fsSet fs1 pdfPath (some env.newContent)) tmpPath none
      ([fs0, fs1, fs2], true)
    else ([fs0], false)
  else ([fs0], false)

/-! ## Migration driver (`migrate_blobs_to_pdf.py`, `main`, lines 243-364)

The loop body is embedded step for step: directory-marker / zero-byte /
excluded-path filters, the `--max-files` break, the extension filter, the
`--test-all` per-category cap (counter bumped *before* the existence
check), the existence skip (a debug-level `SKIP` record), then
download → convert (fallback to placeholder on any exception) → save,
with `OK` logged only when no fallback happened and `ERROR` on any
exception of the item.  Download / convert / placeholder / save outcomes
are supplied by a per-blob oracle. -/

/-- One remote object from the listing: name and byte size. -/
structure Blob where
  name : List Char
  size : Nat
deriving DecidableEq, Repr

/-- Resolved configuration of one driver run (CLI flags and `.env`). -/
structure DriverCfg where
  inPre : List Char
  outPre : List Char
  maxFiles : Option Nat
  filterExt : Option (List Char)
  testAll : Option Nat
  localOut : Option (List Char)
  force : Bool
  overwriteOut : Bool

/-- External outcomes for one item: does the download succeed, does
`convert_anything_to_pdf` succeed, does `create_placeholder_pdf` succeed,
does `save_pdf` succeed. -/
structure ItemOutcome where
  downloadOk : Bool
  convertOk : Bool
  placeholderOk : Bool
  saveOk : Bool
deriving Repr

/-- Python `logging` levels used by the driver. -/
inductive LogLevel where
  | debug | info | warning | err
deriving DecidableEq, Repr

/-- Numeric value of a level (as in Python's `logging`). -/
def levNat : LogLevel → Nat
  | .debug => 10
  | .info => 20
  | .warning => 30
  | .err => 40

/-- A structured log record emitted by the driver. -/
inductive LogRec where
  | ok (cat : Category) (n : Nat) (src dest : List Char)
  | fallback (src : List Char)
  | error (src : List Char)
  | skip (cat : Category) (n : Nat) (target : List Char)
deriving DecidableEq, Repr

/-- Level each record is logged at (`logger.info` / `logger.warning` /
`logger.error` / `logger.debug`). -/
def levelOf : LogRec → LogLevel
  | .ok _ _ _ _ => .info
  | .fallback _ => .warning
  | .error _ => .err
  | .skip _ _ _ => .debug

/-- Is this an `OK` record? -/
def isOkRec : LogRec → Bool
  | .ok _ _ _ _ => true
  | _ => false

/-- `migration.log` file handler: level `INFO` and above
(`migrate_blobs_to_pdf.py` lines 50-54), so debug `SKIP` lines never
reach the file. -/
def fileRecords (rs : List LogRec) : List LogRec :=
  rs.filter (fun r => decide (20 ≤ levNat (levelOf r)))

/-- Category name as logged / used for the local output sub-directory. -/
def catStr : Category → List Char
  | .pdf => toL "pdf"
  | .word => toL "word"
  | .excel => toL "excel"
  | .ppt => toL "ppt"
  | .image => toL "image"
  | .html => toL "html"
  | .msg => toL "msg"
  | .eml => toL "eml"
  | .attachment => toL "attachment"

/-- Relative path of a blob: `blob.name[len(INPUT_PREFIX):]`. -/
def relOf (cfg : DriverCfg) (b : Blob) : List Char :=
  b.name.drop cfg.inPre.length

/-- Computed destination name (lines 323-329): replace the input marker
with the output marker and substitute the extension with `.pdf`. -/
def targetOf (cfg : DriverCfg) (b : Blob) : List Char :=
  let rel := relOf cfg b
  if '.' ∈ takeAfterLast '/' rel then
    cfg.outPre ++ beforeLastDot rel ++ toL ".pdf"
  else
    cfg.outPre ++ rel ++ toL ".pdf"

/-- Where `save_pdf` writes (lines 57-68): the blob target when uploading,
`local_dir/category/(stem + ".pdf")` with `--local-output`. -/
def destOf (cfg : DriverCfg) (cat : Category) (target : List Char) : List Char :=
  match cfg.localOut with
  | none => target
  | some d => joinP (joinP d (catStr cat)) (pyStem target ++ toL ".pdf")

/-- Pre-download filters of the loop body (lines 286-296): directory
marker, zero-byte folder marker, excluded sub-paths. -/
def skipBlob (cfg : DriverCfg) (b : Blob) : Bool :=
  b.name.getLast? = some '/' || b.size = 0 ||
  (toL "Logs/").isPrefixOf (relOf cfg b) ||
  (toL "Mapping Tables/").isPrefixOf (relOf cfg b)

/-- The `--max-files` break condition (lines 299-302): Python's
`args.max_files is not None and processed_count >= args.max_files`. -/
def maxHit (cfg : DriverCfg) (processed : Nat) : Bool :=
  match cfg.maxFiles with
  | some m => processed ≥ m
  | none => false

/-- Extension filter (lines 308-310): skip when a non-empty
`--filter-extension` is set and the lowered extension differs. -/
def filteredOut (cfg : DriverCfg) (ext : List Char) : Bool :=
  match cfg.filterExt with
  | some f => ¬f.isEmpty && ext ≠ lowerStr f
  | none => false

/-- `--test-all` cap check (lines 315-317): Python truthiness of
`args.test_all` (so `0` disables the cap) and the per-category counter. -/
def capHit (cfg : DriverCfg) (cts : Category → Nat) (cat : Category) : Bool :=
  match cfg.testAll with
  | some n => n ≠ 0 && cts cat ≥ n
  | none => false

/-- Bump the per-category counter (`category_counts[category] += 1`). -/
def bump (cts : Category → Nat) (cat : Category) : Category → Nat :=
  fun c => if c = cat then cts c + 1 else cts c

/-- Records and destination writes of one item that reached the
download/convert/save block (lines 336-364). -/
def itemRecsWrites (o : ItemOutcome) (cat : Category) (n : Nat)
    (srcName target dest : List Char) : List LogRec × List (List Char) :=
  let _ := target
  if o.downloadOk then
    if o.convertOk then
      if o.saveOk then ([.ok cat n srcName dest], [dest])
      else ([.error srcName], [])
    else
      if o.placeholderOk then
        if o.saveOk then ([.fallback srcName], [dest])
        else ([.fallback srcName, .error srcName], [])
      else ([.fallback srcName, .error srcName], [])
  else ([.error srcName], [])

/-- Result of a driver run: emitted records in order, destination writes in
order, and the final per-category counters. -/
structure RunOut where
  recs : List LogRec
  writes : List (List Char)
  counts : Category → Nat

/-- The main processing loop (lines 285-364) over the blob listing, with
the existence set and the per-item outcome oracle as parameters. -/
def runLoop (cfg : DriverCfg) (existing : List (List Char))
    (oc : List Char → ItemOutcome) :
    List Blob → (Category → Nat) → Nat → RunOut
  | [], cts, _ => ⟨[], [], cts⟩
  | b :: rest, cts, processed =>
    if skipBlob cfg b then runLoop cfg existing oc rest cts processed
    else if maxHit cfg processed then ⟨[], [], cts⟩
    else
      let ext := lowerStr (pySuffix b.name)
      if filteredOut cfg ext then runLoop cfg existing oc rest cts processed
      else
        let cat := get_category_for_extension ext
        if capHit cfg cts cat then runLoop cfg existing oc rest cts processed
        else
          let cts' := bump cts cat
          let tgt := targetOf cfg b
          if tgt ∈ existing then
            let r := runLoop cfg existing oc rest cts' processed
            ⟨.skip cat (cts' cat) tgt :: r.recs, r.writes, r.counts⟩
          else
            let iw := itemRecsWrites (oc b.name) cat (cts' cat) b.name tgt
              (destOf cfg cat tgt)
            let r := runLoop cfg existing oc rest cts' (processed + 1)
            ⟨iw.1 ++ r.recs, iw.2 ++ r.writes, r.counts⟩

/-- One full driver run (lines 267-364): the existing-output set is only
populated when neither `--force`, nor the overwrite policy, nor
`--local-output` is in effect. -/
def runDriver (cfg : DriverCfg) (outputListing : List (List Char))
    (oc : List Char → ItemOutcome) (blobs : List Blob) : RunOut :=
  let existing :=
    if cfg.force = false ∧ cfg.overwriteOut = false ∧ cfg.localOut = none then
      outputListing
    else []
  runLoop cfg existing oc blobs (fun _ => 0) 0

/-! ## Failure ledger (`extract_failures.py`)

The two regular expressions are embedded as hand-rolled scanners with the
same leftmost-match semantics:

`ERROR_PATTERN = r'(?:ERROR|FALLBACK)\s+(MedicalFiles/[^:]+?)\s*:'`
`OK_PATTERN = r' OK \w+ \d+ (MedicalFiles/.+?) ->'`

The lazy groups stop at the first `:` (resp. first ` ->`); combined with
the callers' `.strip()`, the extracted value is the captured text with
surrounding whitespace removed. -/

/-- The literal source-name marker both patterns require. -/
def medPre : List Char := toL "MedicalFiles/"

def errKw : List Char := toL "ERROR"
def fbKw : List Char := toL "FALLBACK"
def okLit : List Char := toL " OK "
def arrowLit : List Char := toL " ->"
def blobDup : List Char := toL "BlobAlreadyExists"

/-- Attempt `ERROR_PATTERN` at the current position for keyword `kw`:
the keyword, at least one whitespace, the `MedicalFiles/` literal, then a
non-empty colon-free body followed by a `:`.  Returns the body. -/
def errCore (kw l : List Char) : Option (List Char) :=
  if kw.isPrefixOf l then
    let r1 := l.drop kw.length
    let ws := r1.takeWhile isWs
    if ws.isEmpty then none
    else
      let r2 := r1.drop ws.length
      if medPre.isPrefixOf r2 then
        let r3 := r2.drop medPre.length
        let body := r3.takeWhile (fun c => c != ':')
        if body.isEmpty then none
        else if body.length = r3.length then none
        else some body
      else none
  else none

/-- Full capture of `ERROR_PATTERN` at the current position. -/
def tryKw (kw l : List Char) : Option (List Char) :=
  (errCore kw l).map (fun b => medPre ++ b)

/-- `ERROR_PATTERN.search`: leftmost position at which `ERROR` (tried
first, as in the alternation) or `FALLBACK` begins a match. -/
def scanErr : List Char → Option (List Char)
  | [] => none
  | c :: rest =>
    match tryKw errKw (c :: rest) with
    | some p => some p
    | none =>
      match tryKw fbKw (c :: rest) with
      | some p => some p
      | none => scanErr rest

/-- Lazy `(.+?)` up to the literal ` ->`: after the first consumed
character, stop as soon as ` ->` starts; `.` never crosses a newline. -/
def goArrow (acc : List Char) : List Char → Option (List Char)
  | [] => none
  | c :: r =>
    if arrowLit.isPrefixOf (c :: r) then some acc.reverse
    else if c = '\n' then none
    else goArrow (c :: acc) r

/-- Consume the (at least one) lazy characters before ` ->`. -/
def grabToArrow : List Char → Option (List Char)
  | [] => none
  | c :: r => if c = '\n' then none else goArrow [c] r

/-- Attempt `OK_PATTERN` at the current position: literal ` OK `, `\w+`,
a space, `\d+`, a space, the `MedicalFiles/` literal, the lazy tail up to
` ->`.  Returns the tail after `MedicalFiles/`. -/
def okCore (l : List Char) : Option (List Char) :=
  if okLit.isPrefixOf l then
    let r1 := l.drop okLit.length
    let w := r1.takeWhile isWordChar
    if w.isEmpty then none
    else
      match r1.drop w.length with
      | ' ' :: r3 =>
        let d := r3.takeWhile Char.isDigit
        if d.isEmpty then none
        else
          match r3.drop d.length with
          | ' ' :: r5 =>
            if medPre.isPrefixOf r5 then
              grabToArrow (r5.drop medPre.length)
            else none
          | _ => none
      | _ => none
  else none

/-- Full capture of `OK_PATTERN` at the current position. -/
def tryOk (l : List Char) : Option (List Char) :=
  (okCore l).map (fun g => medPre ++ g)

/-- `OK_PATTERN.search`: leftmost matching position. -/
def scanOk : List Char → Option (List Char)
  | [] => none
  | c :: rest =>
    match tryOk (c :: rest) with
    | some p => some p
    | none => scanOk rest

/-- `extract_success_path` (lines 58-63): regex search plus `.strip()`. -/
def extract_success_path (line : List Char) : Option (List Char) :=
  (scanOk line).map pyStrip

/-- `extract_error_path` (lines 66-71): regex search plus `.strip()`. -/
def extract_error_path (line : List Char) : Option (List Char) :=
  (scanErr line).map pyStrip

/-- `CATEGORIES` (lines 23-51): insertion-ordered category → substring
patterns. -/
def CATEGORIES : List (List Char × List (List Char)) :=
  [ (toL "network_timeout",
      [toL "Failed to resolve", toL "Read timed out", toL "getaddrinfo failed"]),
    (toL "auth_expired", [toL "az login"]),
    (toL "msg_com_error",
      [toL "Call was rejected by callee", toL "Server execution failed",
       toL "OpenSharedItem", toL "GetNamespace"]),
    (toL "password_protected", [toL "Password protected file"]),
    (toL "corrupt_image",
      [toL "cannot identify image file", toL "image file is truncated"]),
    (toL "corrupt_office", [toL "Office has detected a problem"]),
    (toL "unsupported_format", [toL "Unsupported file extension"]) ]

/-- Does any pattern of this category entry occur in the line? -/
def catMatches (line : List Char) (e : List Char × List (List Char)) : Bool :=
  e.2.any (fun p => hasSub p line)

/-- `categorize_error` (lines 74-83): the benign duplicate-write condition
is excluded outright; otherwise the first category (in `CATEGORIES`
order) with a matching pattern; `none` when nothing matches. -/
def categorize_error (line : List Char) : Option (List Char) :=
  if hasSub blobDup line then none
  else (CATEGORIES.find? (catMatches line)).map Prod.fst

/-- Ledger state produced by `parse_log`: failure entries `(category,
path)` and the success paths, membership-significant. -/
def parseStep (acc : List (List Char × List Char) × List (List Char))
    (line : List Char) : List (List Char × List Char) × List (List Char) :=
  if hasSub okLit line then
    match extract_success_path line with
    | some p => (acc.1, acc.2 ++ [p])
    | none => acc
  else if ¬hasSub errKw line ∧ ¬hasSub fbKw line then acc
  else
    match categorize_error line with
    | none => acc
    | some cat =>
      match extract_error_path line with
      | some p => (acc.1 ++ [(cat, p)], acc.2)
      | none => acc

/-- `parse_log` (lines 86-117) over the log's lines. -/
def parse_log (lines : List (List Char)) :
    List (List Char × List Char) × List (List Char) :=
  lines.foldl parseStep ([], [])

/-- The `--update` branch of `main` (lines 164-179): recompute the success
set from the log and keep only the failures that never succeeded
(`current_failures - successes`). -/
def prune (current : List (List Char)) (lines : List (List Char)) :
    List (List Char) :=
  let succs := (parse_log lines).2
  current.filter (fun p => decide (p ∉ succs))

/-! ## Concrete fixtures used by the theorems below -/

/-- Oracle: every external step succeeds. -/
def ocAllOk : List Char → ItemOutcome := fun _ => ⟨true, true, true, true⟩

/-- Oracle: primary conversion fails, placeholder and save succeed. -/
def ocFallback : List Char → ItemOutcome := fun _ => ⟨true, false, true, true⟩

/-- Driver configuration with a per-category test cap of 2. -/
def cfgCap : DriverCfg :=
  { inPre := toL "in/", outPre := toL "out/", maxFiles := none,
    filterExt := none, testAll := some 2, localOut := none,
    force := false, overwriteOut := false }

/-- Plain driver configuration (no flags). -/
def cfgPlain : DriverCfg :=
  { inPre := toL "in/", outPre := toL "out/", maxFiles := none,
    filterExt := none, testAll := none, localOut := none,
    force := false, overwriteOut := false }

/-- Three queued images, in listing order. -/
def blobsPng : List Blob :=
  [⟨toL "in/1.png", 5⟩, ⟨toL "in/2.png", 5⟩, ⟨toL "in/3.png", 5⟩]

/-- A single Word document blob. -/
def blobDocx : Blob := ⟨toL "in/a.docx", 5⟩

/-- Dispatcher environment: source present, all renderers succeed. -/
def envOk : RenderEnv := ⟨true, id, fun _ => true⟩

/-- Dispatcher environment: source missing. -/
def envMissing : RenderEnv := ⟨false, id, fun _ => true⟩

/-- Empty abstract filesystem. -/
def fsEmpty : Fs := fun _ => none

/-- Embedder environment: both reads succeed. -/
def envEmbed : EmbedEnv := ⟨true, true, 7⟩

/-- Embedder environment: reading the source PDF fails. -/
def envEmbedBad : EmbedEnv := ⟨false, true, 7⟩

/-! ## Helper lemmas -/

theorem lowerChar_idem (c : Char) : lowerChar (lowerChar c) = lowerChar c := by
  by_cases hA : c = 'A'; · subst hA; decide
  by_cases hB : c = 'B'; · subst hB; decide
  by_cases hC : c = 'C'; · subst hC; decide
  by_cases hD : c = 'D'; · subst hD; decide
  by_cases hE : c = 'E'; · subst hE; decide
  by_cases hF : c = 'F'; · subst hF; decide
  by_cases hG : c = 'G'; · subst hG; decide
  by_cases hH : c = 'H'; · subst hH; decide
  by_cases hI : c = 'I'; · subst hI; decide
  by_cases hJ : c = 'J'; · subst hJ; decide
  by_cases hK : c = 'K'; · subst hK; decide
  by_cases hL : c = 'L'; · subst hL; decide
  by_cases hM : c = 'M'; · subst hM; decide
  by_cases hN : c = 'N'; · subst hN; decide
  by_cases hO : c = 'O'; · subst hO; decide
  by_cases hP : c = 'P'; · subst hP; decide
  by_cases hQ : c = 'Q'; · subst hQ; decide
  by_cases hR : c = 'R'; · subst hR; decide
  by_cases hS : c = 'S'; · subst hS; decide
  by_cases hT : c = 'T'; · subst hT; decide
  by_cases hU : c = 'U'; · subst hU; decide
  by_cases hV : c = 'V'; · subst hV; decide
  by_cases hW : c = 'W'; · subst hW; decide
  by_cases hX : c = 'X'; · subst hX; decide
  by_cases hY : c = 'Y'; · subst hY; decide
  by_cases hZ : c = 'Z'; · subst hZ; decide
  have h : lowerChar c = c := by
    unfold lowerChar
    simp only [if_neg hA, if_neg hB, if_neg hC, if_neg hD, if_neg hE, if_neg hF,
      if_neg hG, if_neg hH, if_neg hI, if_neg hJ, if_neg hK, if_neg hL,
      if_neg hM, if_neg hN, if_neg hO, if_neg hP, if_neg hQ, if_neg hR,
      if_neg hS, if_neg hT, if_neg hU, if_neg hV, if_neg hW, if_neg hX,
      if_neg hY, if_neg hZ]
  rw [h]; exact h

theorem lowerStr_idem (e : List Char) : lowerStr (lowerStr e) = lowerStr e := by
  unfold lowerStr
  rw [List.map_map]
  congr 1
  funext c
  exact lowerChar_idem c

theorem not_mem_all_split {e : List Char} (h : e ∉ ALL_SUPPORTED_EXTENSIONS) :
    e ∉ PDF_EXTENSIONS ∧ e ∉ WORD_EXTENSIONS ∧ e ∉ EXCEL_EXTENSIONS ∧
    e ∉ PPT_EXTENSIONS ∧ e ∉ IMAGE_EXTENSIONS ∧ e ∉ HTML_EXTENSIONS ∧
    e ∉ MSG_EXTENSIONS ∧ e ∉ EML_EXTENSIONS := by
  simp only [ALL_SUPPORTED_EXTENSIONS, List.mem_append] at h
  push_neg at h
  tauto

/-! ## C9 -/

/-- C9: the extension classifier is a pure total function into the fixed
category set; unmapped extensions fall to the catch-all `attachment`
category; and it is case-insensitive: `classify(e) = classify(e.lower())`,
in particular `classify(".DOCX") = classify(".docx")`. -/
theorem c9_classifier_total_case_insensitive :
    (∀ e : List Char,
       get_category_for_extension e = get_category_for_extension (lowerStr e)) ∧
    (∀ e : List Char, lowerStr e ∉ ALL_SUPPORTED_EXTENSIONS →
       get_category_for_extension e = Category.attachment) ∧
    (get_category_for_extension (toL ".DOCX") =
       get_category_for_extension (toL ".docx")) ∧
    (∀ e : List Char, get_category_for_extension e ∈
       [Category.pdf, Category.word, Category.excel, Category.ppt,
        Category.image, Category.html, Category.msg, Category.eml,
        Category.attachment]) := by
  refine ⟨?_, ?_, by decide, ?_⟩
  · intro e
    simp only [get_category_for_extension, lowerStr_idem]
  · intro e h
    obtain ⟨h1, h2, h3, h4, h5, h6, h7, h8⟩ := not_mem_all_split h
    simp only [get_category_for_extension, if_neg h1, if_neg h2, if_neg h3,
      if_neg h4, if_neg h5, if_neg h6, if_neg h7, if_neg h8]
  · intro e
    generalize get_category_for_extension e = x
    cases x <;> decide

/-- C9 witness: a concrete unmapped extension. -/
theorem c9_witness :
    lowerStr (toL ".xyz") ∉ ALL_SUPPORTED_EXTENSIONS ∧
    get_category_for_extension (toL ".xyz") = Category.attachment :=
  ⟨by decide, c9_classifier_total_case_insensitive.2.1 (toL ".xyz") (by decide)⟩

/-! ## C4 -/

/-- C4: the dispatcher fails with `NotFound` when the source is missing;
when the source exists but its lowercased extension is outside the
supported set it fails with `UnsupportedFormat` performing no filesystem
or renderer operation at all; in particular `a/mystery.xyz` yields
`UnsupportedFormat ".xyz"`, never a silent conversion. -/
theorem c4_dispatcher_error_paths (env : RenderEnv) (srcPath dstDir : List Char)
    (ao : Bool) :
    (env.srcExists = false →
       convert_anything_to_pdf env srcPath dstDir ao =
         (.error .notFound, [])) ∧
    (env.srcExists = true →
       lowerStr (pySuffix srcPath) ∉ ALL_SUPPORTED_EXTENSIONS →
       convert_anything_to_pdf env srcPath dstDir ao =
         (.error (.unsupportedFormat (lowerStr (pySuffix srcPath))), [])) ∧
    (env.srcExists = true →
       convert_anything_to_pdf env (toL "a/mystery.xyz") dstDir ao =
         (.error (.unsupportedFormat (toL ".xyz")), [])) := by
  obtain ⟨se, res, rok⟩ := env
  refine ⟨?_, ?_, ?_⟩
  · intro h
    simp only at h
    subst h
    rfl
  · intro hse h
    simp only at hse
    subst hse
    obtain ⟨h1, h2, h3, h4, h5, h6, h7, h8⟩ := not_mem_all_split h
    simp only [convert_anything_to_pdf, if_neg h1, if_neg h2, if_neg h3,
      if_neg h4, if_neg h5, if_neg h6, if_neg h7, if_neg h8]
    simp
  · intro hse
    simp only at hse
    subst hse
    rfl

/-- C4 witness: missing source, and the concrete unsupported input. -/
theorem c4_witness :
    convert_anything_to_pdf envMissing (toL "a/doc.docx") (toL "out") true =
      (.error .notFound, []) ∧
    convert_anything_to_pdf envOk (toL "a/mystery.xyz") (toL "out") true =
      (.error (.unsupportedFormat (toL ".xyz")), []) ∧
    convert_anything_to_pdf envOk (toL "a/mystery.xyz") (toL "out") true =
      (.error (.unsupportedFormat (lowerStr (pySuffix (toL "a/mystery.xyz")))), []) :=
  ⟨(c4_dispatcher_error_paths envMissing (toL "a/doc.docx") (toL "out") true).1 rfl,
   (c4_dispatcher_error_paths envOk (toL "a/mystery.xyz") (toL "out") true).2.2 rfl,
   (c4_dispatcher_error_paths envOk (toL "a/mystery.xyz") (toL "out") true).2.1 rfl
     (by decide)⟩

/-! ## C5 -/

/-- C5 counterexample: even with `attach_original` explicitly set to
`True`, `_handle_pdf` performs a plain metadata-preserving copy and never
embeds the original — the flag cannot be "forced on": the function body
ignores it (`any2pdf.py` lines 331-334 are only a comment). -/
theorem c5_counterexample :
    handle_pdf envOk (toL "in/x.pdf") (toL "out") true =
      (.ok (toL "out/x.pdf"),
       [.copy2 (toL "in/x.pdf") (toL "out/x.pdf")]) ∧
    ((handle_pdf envOk (toL "in/x.pdf") (toL "out") true).2.all
       (fun op => match op with | FsOp.attach _ _ => false | _ => true)) = true := by
  exact ⟨rfl, rfl⟩

/-- C5 (amended): for an existing PDF-category source, identical resolved
source/target means the source path is returned with no write; otherwise
the source is byte-copied (`shutil.copy2`, metadata preserved) to the
target; embedding is never performed for the PDF category — it is skipped
by default (the dispatcher hard-codes `attach_original=False`) and cannot
be forced on, since `_handle_pdf` ignores the flag. -/
theorem c5_pdf_passthrough (env : RenderEnv) (srcPath dstDir : List Char)
    (ao : Bool) :
    (env.resolve srcPath = env.resolve (joinP dstDir (pyStem srcPath ++ toL ".pdf")) →
       handle_pdf env srcPath dstDir ao = (.ok srcPath, [])) ∧
    (env.resolve srcPath ≠ env.resolve (joinP dstDir (pyStem srcPath ++ toL ".pdf")) →
       handle_pdf env srcPath dstDir ao =
         (.ok (joinP dstDir (pyStem srcPath ++ toL ".pdf")),
          [.copy2 srcPath (joinP dstDir (pyStem srcPath ++ toL ".pdf"))])) ∧
    (∀ op ∈ (handle_pdf env srcPath dstDir ao).2,
       match op with | FsOp.attach _ _ => False | _ => True) ∧
    (env.srcExists = true → lowerStr (pySuffix srcPath) ∈ PDF_EXTENSIONS →
       convert_anything_to_pdf env srcPath dstDir ao =
         handle_pdf env srcPath dstDir false) := by
  refine ⟨?_, ?_, ?_, ?_⟩
  · intro h
    simp only [handle_pdf, if_pos h]
  · intro h
    simp only [handle_pdf, if_neg h]
  · intro op hop
    simp only [handle_pdf] at hop
    split at hop
    · simp at hop
    · simp at hop
      subst hop
      trivial
  · intro hse hext
    obtain ⟨se, res, rok⟩ := env
    simp only at hse
    subst hse
    simp only [convert_anything_to_pdf, if_pos hext]
    simp

/-- C5 witness: concrete pass-through (same resolved path, no write),
concrete copy, and the PDF routing of the dispatcher. -/
theorem c5_witness :
    handle_pdf envOk (toL "out/x.pdf") (toL "out") true =
      (.ok (toL "out/x.pdf"), []) ∧
    handle_pdf envOk (toL "in/x.pdf") (toL "out") false =
      (.ok (toL "out/x.pdf"),
       [.copy2 (toL "in/x.pdf") (toL "out/x.pdf")]) ∧
    convert_anything_to_pdf envOk (toL "in/x.pdf") (toL "out") true =
      handle_pdf envOk (toL "in/x.pdf") (toL "out") false :=
  ⟨(c5_pdf_passthrough envOk (toL "out/x.pdf") (toL "out") true).1 (by decide),
   (c5_pdf_passthrough envOk (toL "in/x.pdf") (toL "out") false).2.1 (by decide),
   (c5_pdf_passthrough envOk (toL "in/x.pdf") (toL "out") true).2.2.2 rfl (by decide)⟩

/-! ## C3 -/

/-- C3: the attachment embedder writes the new container to a fresh
temporary path and only touches `pdf_path` through the final atomic
`os.replace`: every filesystem state in the trace shows `pdf_path` holding
either its original content or the complete new container (never anything
partial), every state before the last still holds the original content,
a failure of either read leaves the filesystem exactly as it started, and
on success the final state has the new container at `pdf_path` and the
temporary file gone. -/
theorem c3_embedder_atomic (env : EmbedEnv) (fs0 : Fs)
    (pdfPath origPath tmpPath : List Char) (hTmp : tmpPath ≠ pdfPath) :
    (∀ fs ∈ (attach_original_to_pdf env fs0 pdfPath origPath tmpPath).1,
       fs pdfPath = fs0 pdfPath ∨ fs pdfPath = some env.newContent) ∧
    (∀ fs ∈ ((attach_original_to_pdf env fs0 pdfPath origPath tmpPath).1).dropLast,
       fs pdfPath = fs0 pdfPath) ∧
    ((attach_original_to_pdf env fs0 pdfPath origPath tmpPath).2 = false →
       (attach_original_to_pdf env fs0 pdfPath origPath tmpPath).1 = [fs0]) ∧
    ((attach_original_to_pdf env fs0 pdfPath origPath tmpPath).2 = true →
       ((attach_original_to_pdf env fs0 pdfPath origPath tmpPath).1).getLast?
           = some (fsSet (fsSet (fsSet fs0 tmpPath (some env.newContent))
               pdfPath (some env.newContent)) tmpPath none) ∧
       (fsSet (fsSet (fsSet fs0 tmpPath (some env.newContent))
           pdfPath (some env.newContent)) tmpPath none) pdfPath
           = some env.newContent ∧
       (fsSet (fsSet (fsSet fs0 tmpPath (some env.newContent))
           pdfPath (some env.newContent)) tmpPath none) tmpPath = none) := by
  have hpt : ¬pdfPath = tmpPath := fun hx => hTmp hx.symm
  obtain ⟨rp, ro, nc⟩ := env
  cases rp <;> cases ro
  case false.false | false.true | true.false =>
    refine ⟨?_, ?_, fun _ => rfl, ?_⟩
    · intro fs hfs
      simp [attach_original_to_pdf] at hfs
      subst hfs
      exact Or.inl rfl
    · intro fs hfs
      simp [attach_original_to_pdf] at hfs
    · intro h
      simp [attach_original_to_pdf] at h
  case true.true =>
    refine ⟨?_, ?_, ?_, ?_⟩
    · intro fs hfs
      simp [attach_original_to_pdf] at hfs
      rcases hfs with h | h | h
      · subst h; exact Or.inl rfl
      · subst h
        exact Or.inl (by simp [fsSet, if_neg hpt])
      · subst h
        exact Or.inr (by simp [fsSet, if_neg hpt])
    · intro fs hfs
      have hdl : ((attach_original_to_pdf ⟨true, true, nc⟩ fs0 pdfPath origPath
          tmpPath).1).dropLast
          = [fs0, fsSet fs0 tmpPath (some nc)] := rfl
      rw [hdl] at hfs
      simp at hfs
      rcases hfs with h | h
      · subst h; rfl
      · subst h
        simp [fsSet, if_neg hpt]
    · intro h
      simp [attach_original_to_pdf] at h
    · intro _
      refine ⟨rfl, ?_, ?_⟩
      · simp [fsSet, if_neg hpt]
      · simp [fsSet]

/-- C3 witness: a successful concrete run ends with the new container at
`pdf_path` and the temporary file removed, and a failed read leaves the
trace at the initial state. -/
theorem c3_witness :
    ((attach_original_to_pdf envEmbed fsEmpty (toL "d/x.pdf") (toL "d/x.docx")
        (toL "d/t1.pdf")).2 = true →
      ((attach_original_to_pdf envEmbed fsEmpty (toL "d/x.pdf") (toL "d/x.docx")
          (toL "d/t1.pdf")).1).getLast?
          = some (fsSet (fsSet (fsSet fsEmpty (toL "d/t1.pdf")
              (some envEmbed.newContent)) (toL "d/x.pdf")
              (some envEmbed.newContent)) (toL "d/t1.pdf") none) ∧
      (fsSet (fsSet (fsSet fsEmpty (toL "d/t1.pdf") (some envEmbed.newContent))
          (toL "d/x.pdf") (some envEmbed.newContent)) (toL "d/t1.pdf") none)
          (toL "d/x.pdf") = some envEmbed.newContent ∧
      (fsSet (fsSet (fsSet fsEmpty (toL "d/t1.pdf") (some envEmbed.newContent))
          (toL "d/x.pdf") (some envEmbed.newContent)) (toL "d/t1.pdf") none)
          (toL "d/t1.pdf") = none) ∧
    (attach_original_to_pdf envEmbedBad fsEmpty (toL "d/x.pdf") (toL "d/x.docx")
        (toL "d/t1.pdf")).1 = [fsEmpty] :=
  ⟨(c3_embedder_atomic envEmbed fsEmpty (toL "d/x.pdf") (toL "d/x.docx")
      (toL "d/t1.pdf") (by decide)).2.2.2,
   (c3_embedder_atomic envEmbedBad fsEmpty (toL "d/x.pdf") (toL "d/x.docx")
      (toL "d/t1.pdf") (by decide)).2.2.1 rfl⟩

/-! ## C1 -/

/-- C1 counterexample: a processed item whose primary conversion fails and
whose placeholder and save succeed yields exactly one `FALLBACK` record
and no `OK` record anywhere in that run — the driver guards the `OK` line
with `if not fallback` (`migrate_blobs_to_pdf.py` lines 358-359), so a
`FALLBACK` line is never followed by an `OK` line for that item in that
run, contrary to the claim's "`FALLBACK` line followed by an eventual
`OK` line". -/
theorem c1_counterexample :
    (runDriver cfgPlain [] ocFallback [blobDocx]).recs
      = [LogRec.fallback (toL "in/a.docx")] ∧
    (∀ r ∈ (runDriver cfgPlain [] ocFallback [blobDocx]).recs,
       isOkRec r = false) := by
  refine ⟨rfl, ?_⟩
  decide

/-- C1 (amended): every item that reaches the download/convert/save block
emits exactly one terminal record — a single `OK`, a single `FALLBACK`
(placeholder substituted; no `OK` is logged for it in that run), a
`FALLBACK` followed by an `ERROR` (failure inside the fallback path), or
a single `ERROR` — and all of these reach the log file, while a `SKIP`
record is debug-level and is filtered out of the log file. -/
theorem c1_terminal_records (o : ItemOutcome) (cat : Category) (n : Nat)
    (src tgt dest : List Char) :
    ((itemRecsWrites o cat n src tgt dest).1 = [LogRec.ok cat n src dest] ∨
     (itemRecsWrites o cat n src tgt dest).1 = [LogRec.fallback src] ∨
     (itemRecsWrites o cat n src tgt dest).1
       = [LogRec.fallback src, LogRec.error src] ∨
     (itemRecsWrites o cat n src tgt dest).1 = [LogRec.error src]) ∧
    fileRecords (itemRecsWrites o cat n src tgt dest).1
      = (itemRecsWrites o cat n src tgt dest).1 ∧
    (∀ c m t, fileRecords [LogRec.skip c m t] = []) := by
  obtain ⟨d, cv, pl, sv⟩ := o
  cases d <;> cases cv <;> cases pl <;> cases sv <;>
    exact ⟨by simp [itemRecsWrites], rfl, fun c m t => rfl⟩

/-! ## C2 -/

/-- Loop invariant for C2: when every blob's computed destination is in the
existing-output set, the loop makes no destination write and emits only
debug-level `SKIP` records. -/
theorem runLoop_all_existing (cfg : DriverCfg) (existing : List (List Char))
    (oc : List Char → ItemOutcome) (blobs : List Blob) (cts : Category → Nat)
    (pc : Nat) (hall : ∀ b ∈ blobs, targetOf cfg b ∈ existing) :
    (runLoop cfg existing oc blobs cts pc).writes = [] ∧
    (∀ r ∈ (runLoop cfg existing oc blobs cts pc).recs,
       levelOf r = LogLevel.debug ∧ isOkRec r = false) := by
  induction blobs generalizing cts pc with
  | nil => exact ⟨rfl, by simp [runLoop]⟩
  | cons b rest ih =>
    have hb := hall b (List.mem_cons_self b rest)
    have hrest : ∀ x ∈ rest, targetOf cfg x ∈ existing :=
      fun x hx => hall x (List.mem_cons_of_mem b hx)
    simp only [runLoop]
    split
    · exact ih cts pc hrest
    · split
      · exact ⟨rfl, by simp⟩
      · split
        · exact ih cts pc hrest
        · split
          · exact ih cts pc hrest
          · refine ⟨(ih _ pc hrest).1, ?_⟩
            intro r hr
            simp only [List.mem_cons] at hr
            rcases hr with h | h
            · subst h; exact ⟨rfl, rfl⟩
            · exact (ih _ pc hrest).2 r h

/-- C2: a second driver run with `overwrite=false`, no `--force` and no
`--local-output`, over a listing in which every item's computed
destination already exists, performs no destination write and emits no
`OK` record: every emitted record is a debug-level `SKIP`, produced before
any download. -/
theorem c2_second_run_idempotent (cfg : DriverCfg)
    (listing : List (List Char)) (oc : List Char → ItemOutcome)
    (blobs : List Blob) (hf : cfg.force = false) (ho : cfg.overwriteOut = false)
    (hl : cfg.localOut = none)
    (hall : ∀ b ∈ blobs, targetOf cfg b ∈ listing) :
    (runDriver cfg listing oc blobs).writes = [] ∧
    (∀ r ∈ (runDriver cfg listing oc blobs).recs,
       levelOf r = LogLevel.debug ∧ isOkRec r = false) := by
  have hex : (if cfg.force = false ∧ cfg.overwriteOut = false ∧
      cfg.localOut = none then listing else []) = listing := by
    simp [hf, ho, hl]
  simp only [runDriver, hex]
  exact runLoop_all_existing cfg listing oc blobs (fun _ => 0) 0 hall

/-- C2 witness: concrete second run over three images whose targets all
exist. -/
theorem c2_witness :
    (runDriver cfgPlain [toL "out/1.pdf", toL "out/2.pdf", toL "out/3.pdf"]
        ocAllOk blobsPng).writes = [] ∧
    (∀ r ∈ (runDriver cfgPlain [toL "out/1.pdf", toL "out/2.pdf", toL "out/3.pdf"]
        ocAllOk blobsPng).recs,
       levelOf r = LogLevel.debug ∧ isOkRec r = false) :=
  c2_second_run_idempotent cfgPlain
    [toL "out/1.pdf", toL "out/2.pdf", toL "out/3.pdf"] ocAllOk blobsPng
    rfl rfl rfl (by decide)

/-! ## C6 -/

/-- A false cap check with a non-zero cap means the counter is strictly
below the cap. -/
theorem capHit_false_lt {cfg : DriverCfg} {cts : Category → Nat}
    {cat : Category} {n : Nat} (hTA : cfg.testAll = some n) (hn : n ≠ 0)
    (h : ¬capHit cfg cts cat = true) : cts cat < n := by
  simp [capHit, hTA] at h
  omega

/-- Loop invariant for C6: with `--test-all N` (N non-zero), the
per-category counter never exceeds N. -/
theorem runLoop_cap_bound (cfg : DriverCfg) (existing : List (List Char))
    (oc : List Char → ItemOutcome) (blobs : List Blob) (cts : Category → Nat)
    (pc : Nat) (cat : Category) (n : Nat) (hTA : cfg.testAll = some n)
    (hn : n ≠ 0) (hcts : cts cat ≤ n) :
    (runLoop cfg existing oc blobs cts pc).counts cat ≤ n := by
  induction blobs generalizing cts pc with
  | nil => simpa [runLoop] using hcts
  | cons b rest ih =>
    simp only [runLoop]
    split
    · exact ih cts pc hcts
    · split
      · simpa using hcts
      · split
        · exact ih cts pc hcts
        · split
          · exact ih cts pc hcts
          · have hlt : cts (get_category_for_extension
                (lowerStr (pySuffix b.name))) < n :=
              capHit_false_lt hTA hn (by assumption)
            have hb : bump cts (get_category_for_extension
                (lowerStr (pySuffix b.name))) cat ≤ n := by
              unfold bump
              by_cases hc : cat = get_category_for_extension
                (lowerStr (pySuffix b.name))
              · rw [if_pos hc]
                rw [hc]
                omega
              · rw [if_neg hc]
                exact hcts
            split
            · exact ih _ pc hb
            · exact ih _ (pc + 1) hb

/-- C6: with the per-category test cap set to N, at most N items per
category are ever admitted (the counter never exceeds N); a cap of 2 on
the image category with three queued images processes exactly the first
two in listing order and skips the third silently (no record at all, in
particular no `ERROR`); and the counter is bumped before the existence
check, so an already-converted item (yielding only a `SKIP`) still
consumes a slot of the quota. -/
theorem c6_test_cap :
    (∀ (cfg : DriverCfg) (existing : List (List Char))
       (oc : List Char → ItemOutcome) (blobs : List Blob)
       (cts : Category → Nat) (pc : Nat) (cat : Category) (n : Nat),
       cfg.testAll = some n → n ≠ 0 → cts cat ≤ n →
       (runLoop cfg existing oc blobs cts pc).counts cat ≤ n) ∧
    ((runDriver cfgCap [] ocAllOk blobsPng).recs
       = [LogRec.ok Category.image 1 (toL "in/1.png") (toL "out/1.pdf"),
          LogRec.ok Category.image 2 (toL "in/2.png") (toL "out/2.pdf")] ∧
     (runDriver cfgCap [] ocAllOk blobsPng).writes
       = [toL "out/1.pdf", toL "out/2.pdf"]) ∧
    ((runDriver cfgCap [toL "out/1.pdf"] ocAllOk blobsPng).recs
       = [LogRec.skip Category.image 1 (toL "out/1.pdf"),
          LogRec.ok Category.image 2 (toL "in/2.png") (toL "out/2.pdf")]) :=
  ⟨fun cfg existing oc blobs cts pc cat n hTA hn hcts =>
     runLoop_cap_bound cfg existing oc blobs cts pc cat n hTA hn hcts,
   ⟨rfl, rfl⟩, rfl⟩

/-- C6 witness: the cap bound applied to the concrete capped run. -/
theorem c6_witness :
    (runLoop cfgCap [] ocAllOk blobsPng (fun _ => 0) 0).counts
      Category.image ≤ 2 :=
  c6_test_cap.1 cfgCap [] ocAllOk blobsPng (fun _ => 0) 0 Category.image 2
    rfl (by decide) (by decide)

/-! ## C7 -/

/-- C7: `prune` keeps exactly the failure-list entries that never appear in
the recomputed success set (`current_failures - successes`); concretely, a
log with a `FALLBACK` line for a name followed later by an `OK` line for
the same name makes `prune` remove that name from a failure list that
contained it. -/
theorem c7_prune_removes_successes (lines : List (List Char))
    (current : List (List Char)) (p : List Char) :
    (p ∈ prune current lines ↔ p ∈ current ∧ p ∉ (parse_log lines).2) ∧
    prune [toL "MedicalFiles/a/b.doc"]
      [toL "2025-06-01 10:00:00,123 WARNING FALLBACK MedicalFiles/a/b.doc : boom",
       toL "2025-06-02 09:30:00,456 INFO OK word 1 MedicalFiles/a/b.doc -> Converted/a/b.pdf"]
      = [] := by
  constructor
  · simp [prune, List.mem_filter]
  · rfl

/-! ## C8 -/

/-- `List.find?` returns the first element satisfying the predicate. -/
theorem find_first_spec {α : Type} (p : α → Bool) :
    ∀ (l : List α) (a : α), l.find? p = some a →
      ∃ i, ∃ hi : i < l.length, l.get ⟨i, hi⟩ = a ∧ p a = true ∧
        ∀ j, ∀ hj : j < l.length, j < i → p (l.get ⟨j, hj⟩) = false := by
  intro l
  induction l with
  | nil => intro a h; simp [List.find?] at h
  | cons b t ih =>
    intro a h
    cases hpb : p b
    · rw [List.find?_cons_of_neg _ (by simp [hpb])] at h
      obtain ⟨i, hi, hget, hpa, hfirst⟩ := ih a h
      refine ⟨i + 1, by simpa using Nat.succ_lt_succ hi, ?_, hpa, ?_⟩
      · simpa using hget
      · intro j hj hji
        cases j with
        | zero => simpa using hpb
        | succ k =>
          have hk : k < t.length := by simpa using hj
          have := hfirst k hk (Nat.lt_of_succ_lt_succ hji)
          simpa using this
    · rw [List.find?_cons_of_pos _ (by simp [hpb])] at h
      obtain rfl : b = a := by simpa using h
      exact ⟨0, by simp, rfl, hpb, fun j hj hji => absurd hji (Nat.not_lt_zero j)⟩

/-- C8: a failure line is attributed to the first category, in the fixed
`CATEGORIES` order, whose substring pattern occurs in the line; a line
containing the benign `BlobAlreadyExists` condition is excluded from
classification entirely; and a line matching no category pattern is
dropped (`none`), not bucketed as "other". -/
theorem c8_first_category (line : List Char) :
    (hasSub blobDup line = true → categorize_error line = none) ∧
    ((∀ e ∈ CATEGORIES, catMatches line e = false) →
       categorize_error line = none) ∧
    (∀ c, categorize_error line = some c →
       hasSub blobDup line = false ∧
       ∃ i, ∃ hi : i < CATEGORIES.length,
         (CATEGORIES.get ⟨i, hi⟩).1 = c ∧
         catMatches line (CATEGORIES.get ⟨i, hi⟩) = true ∧
         ∀ j, ∀ hj : j < CATEGORIES.length, j < i →
           catMatches line (CATEGORIES.get ⟨j, hj⟩) = false) := by
  refine ⟨?_, ?_, ?_⟩
  · intro h
    simp [categorize_error, h]
  · intro h
    unfold categorize_error
    split
    · rfl
    · rw [List.find?_eq_none.mpr (fun e he => by simp [h e he])]
      rfl
  · intro c h
    unfold categorize_error at h
    split at h
    · cases h
    · have hb : hasSub blobDup line = false := by
        rename_i hcond
        exact Bool.not_eq_true _ ▸ Bool.of_not_eq_true hcond
      obtain ⟨e, hfind, hfst⟩ := Option.map_eq_some'.mp h
      obtain ⟨i, hi, hget, hpe, hfirst⟩ := find_first_spec (catMatches line)
        CATEGORIES e hfind
      exact ⟨hb, i, hi, by rw [hget, hfst], by rw [hget]; exact hpe, hfirst⟩

/-- C8 witness: a `BlobAlreadyExists` line is excluded even though a
pattern matches; an unmatched line is dropped; and an `az login` line that
also matches the earlier network-timeout category goes to
`network_timeout`, the first match in the fixed order. -/
theorem c8_witness :
    categorize_error
      (toL "ERROR MedicalFiles/x : BlobAlreadyExists Read timed out") = none ∧
    categorize_error (toL "ERROR MedicalFiles/x : something odd") = none ∧
    (hasSub blobDup (toL "ERROR MedicalFiles/x : Read timed out az login")
       = false ∧
     ∃ i, ∃ hi : i < CATEGORIES.length,
       (CATEGORIES.get ⟨i, hi⟩).1 = toL "network_timeout" ∧
       catMatches (toL "ERROR MedicalFiles/x : Read timed out az login")
         (CATEGORIES.get ⟨i, hi⟩) = true ∧
       ∀ j, ∀ hj : j < CATEGORIES.length, j < i →
         catMatches (toL "ERROR MedicalFiles/x : Read timed out az login")
           (CATEGORIES.get ⟨j, hj⟩) = false) :=
  ⟨(c8_first_category (toL "ERROR MedicalFiles/x : BlobAlreadyExists Read timed out")).1
      (by decide),
   (c8_first_category (toL "ERROR MedicalFiles/x : something odd")).2.1
      (by decide),
   (c8_first_category (toL "ERROR MedicalFiles/x : Read timed out az login")).2.2
      (toL "network_timeout") (by decide)⟩

/-! ## C10 -/

theorem isPrefixOf_self_append (a x : List Char) :
    a.isPrefixOf (a ++ x) = true := by
  induction a with
  | nil => simp [List.isPrefixOf]
  | cons c a ih => simp [List.isPrefixOf, ih]

theorem dropWhile_append_cases (p : Char → Bool) (a b : List Char) :
    List.dropWhile p (a ++ b)
      = if (List.dropWhile p a).isEmpty then List.dropWhile p b
        else List.dropWhile p a ++ b := by
  induction a with
  | nil => simp
  | cons c a ih =>
    cases hpc : p c
    · simp [List.dropWhile, hpc]
    · simpa [List.dropWhile, hpc] using ih

/-- Stripping whitespace from a string that begins with `MedicalFiles/`
keeps the prefix: the leading `M` and trailing `/` are not whitespace. -/
theorem pyStrip_medPre (t : List Char) :
    medPre.isPrefixOf (pyStrip (medPre ++ t)) = true := by
  have h1 : (medPre ++ t).dropWhile isWs = medPre ++ t := by
    have : medPre ++ t = 'M' :: (toL "edicalFiles/" ++ t) := rfl
    rw [this, List.dropWhile_cons]
    simp [isWs]
  unfold pyStrip
  rw [h1, List.reverse_append, dropWhile_append_cases]
  by_cases he : (t.reverse.dropWhile isWs).isEmpty
  · rw [if_pos he]
    have : List.dropWhile isWs medPre.reverse = medPre.reverse := by decide
    rw [this, List.reverse_reverse]
    have h0 := isPrefixOf_self_append medPre []
    rw [List.append_nil] at h0
    exact h0
  · rw [if_neg he, List.reverse_append, List.reverse_reverse]
    exact isPrefixOf_self_append medPre (t.reverse.dropWhile isWs).reverse

theorem tryKw_shape (kw l p : List Char) (h : tryKw kw l = some p) :
    ∃ t, p = medPre ++ t := by
  unfold tryKw at h
  obtain ⟨b, _, hb⟩ := Option.map_eq_some'.mp h
  exact ⟨b, hb.symm⟩

theorem tryOk_shape (l p : List Char) (h : tryOk l = some p) :
    ∃ t, p = medPre ++ t := by
  unfold tryOk at h
  obtain ⟨g, _, hg⟩ := Option.map_eq_some'.mp h
  exact ⟨g, hg.symm⟩

theorem scanErr_shape : ∀ (l p : List Char), scanErr l = some p →
    ∃ t, p = medPre ++ t := by
  intro l
  induction l with
  | nil => intro p h; cases h
  | cons c rest ih =>
    intro p h
    rw [scanErr] at h
    split at h
    · cases h; exact tryKw_shape errKw (c :: rest) p (by assumption)
    · split at h
      · cases h; exact tryKw_shape fbKw (c :: rest) p (by assumption)
      · exact ih p h

theorem scanOk_shape : ∀ (l p : List Char), scanOk l = some p →
    ∃ t, p = medPre ++ t := by
  intro l
  induction l with
  | nil => intro p h; cases h
  | cons c rest ih =>
    intro p h
    rw [scanOk] at h
    split at h
    · cases h; exact tryOk_shape (c :: rest) p (by assumption)
    · exact ih p h

theorem extract_error_path_pre (line p : List Char)
    (h : extract_error_path line = some p) : medPre.isPrefixOf p = true := by
  unfold extract_error_path at h
  obtain ⟨q, hq, hp⟩ := Option.map_eq_some'.mp h
  obtain ⟨t, rfl⟩ := scanErr_shape line q hq
  rw [← hp]
  exact pyStrip_medPre t

theorem extract_success_path_pre (line p : List Char)
    (h : extract_success_path line = some p) : medPre.isPrefixOf p = true := by
  unfold extract_success_path at h
  obtain ⟨q, hq, hp⟩ := Option.map_eq_some'.mp h
  obtain ⟨t, rfl⟩ := scanOk_shape line q hq
  rw [← hp]
  exact pyStrip_medPre t

/-- Every path accumulated by `parse_log` carries the `MedicalFiles/`
marker. -/
theorem parse_log_pre (lines : List (List Char)) :
    ∀ acc : List (List Char × List Char) × List (List Char),
      (∀ e ∈ acc.1, medPre.isPrefixOf e.2 = true) →
      (∀ p ∈ acc.2, medPre.isPrefixOf p = true) →
      (∀ e ∈ (lines.foldl parseStep acc).1, medPre.isPrefixOf e.2 = true) ∧
      (∀ p ∈ (lines.foldl parseStep acc).2, medPre.isPrefixOf p = true) := by
  induction lines with
  | nil => intro acc h1 h2; exact ⟨h1, h2⟩
  | cons line rest ih =>
    intro acc h1 h2
    simp only [List.foldl_cons]
    refine ih (parseStep acc line) ?_ ?_
    · intro e he
      unfold parseStep at he
      split at he
      · split at he
        · exact h1 e he
        · exact h1 e he
      · split at he
        · exact h1 e he
        · split at he
          · exact h1 e he
          · split at he
            · simp only [List.mem_append, List.mem_singleton] at he
              rcases he with h | h
              · exact h1 e h
              · subst h
                exact extract_error_path_pre line _ (by assumption)
            · exact h1 e he
    · intro p hp
      unfold parseStep at hp
      split at hp
      · split at hp
        · simp only [List.mem_append, List.mem_singleton] at hp
          rcases hp with h | h
          · exact h2 p h
          · subst h
            exact extract_success_path_pre line _ (by assumption)
        · exact h2 p hp
      · split at hp
        · exact h2 p hp
        · split at hp
          · exact h2 p hp
          · split at hp
            · exact h2 p hp
            · exact h2 p hp

/-- C10: the ledger's path extraction only recognises source names that
begin with the literal `MedicalFiles/` marker: every extracted error or
success path carries that marker, every name in the parsed failure and
success sets carries it, and consequently `prune` never removes a name
without the marker from a failure list, even when the log contains a
later success line for it. -/
theorem c10_medicalfiles_marker :
    (∀ line p, extract_error_path line = some p →
       medPre.isPrefixOf p = true) ∧
    (∀ line p, extract_success_path line = some p →
       medPre.isPrefixOf p = true) ∧
    (∀ lines, ∀ e ∈ (parse_log lines).1, medPre.isPrefixOf e.2 = true) ∧
    (∀ lines, ∀ p ∈ (parse_log lines).2, medPre.isPrefixOf p = true) ∧
    (∀ lines current p, p ∈ current → medPre.isPrefixOf p = false →
       p ∈ prune current lines) := by
  have hparse : ∀ lines : List (List Char),
      (∀ e ∈ (parse_log lines).1, medPre.isPrefixOf e.2 = true) ∧
      (∀ p ∈ (parse_log lines).2, medPre.isPrefixOf p = true) := by
    intro lines
    exact parse_log_pre lines ([], []) (by simp) (by simp)
  refine ⟨extract_error_path_pre, extract_success_path_pre,
    fun lines => (hparse lines).1, fun lines => (hparse lines).2, ?_⟩
  intro lines current p hcur hnp
  have hns : p ∉ (parse_log lines).2 := fun hs => by
    have := (hparse lines).2 p hs
    rw [hnp] at this
    cases this
  unfold prune
  rw [List.mem_filter]
  exact ⟨hcur, by simpa using hns⟩

/-- C10 witness: a name outside `MedicalFiles/` survives `prune` even
though the log contains a later `OK` line for it, and a concrete
`FALLBACK` extraction carries the marker. -/
theorem c10_witness :
    toL "Other/x.doc" ∈ prune [toL "Other/x.doc"]
      [toL "2025-06-01 10:00:00,123 WARNING FALLBACK Other/x.doc : boom",
       toL "2025-06-02 09:30:00,456 INFO OK word 1 Other/x.doc -> Converted/x.pdf"] ∧
    medPre.isPrefixOf (toL "MedicalFiles/a/b.doc") = true :=
  ⟨c10_medicalfiles_marker.2.2.2.2
      [toL "2025-06-01 10:00:00,123 WARNING FALLBACK Other/x.doc : boom",
       toL "2025-06-02 09:30:00,456 INFO OK word 1 Other/x.doc -> Converted/x.pdf"]
      [toL "Other/x.doc"] (toL "Other/x.doc") (by decide) (by decide),
   c10_medicalfiles_marker.1
      (toL "2025-06-01 10:00:00,123 WARNING FALLBACK MedicalFiles/a/b.doc : boom")
      (toL "MedicalFiles/a/b.doc") (by decide)⟩

end Any2Pdf
